import Mathlib

/-!
Verification of the report-normalization core of the prototype-report
frontend (`src/components/ReportPage.tsx`).

The development shallowly embeds the untyped JavaScript values that
`JSON.parse` (and, more generally, an `unknown`-typed argument) can carry,
and translates the pure normalization functions `clampScore`,
`normalizeString`, `asRiskArray`, `translateRisk` and `mapToReport`, the
upload event handler `handleFileChange`, and the `ArcSightExecutiveSummary`
insight aggregation, into Lean.

Modelling conventions:
* JavaScript `undefined` is `Option.none` at the interfaces that can
  receive it (absent object fields, nullish coalescing); JSON `null` is the
  explicit value `JValue.null`.
* Finite JavaScript numbers are modelled as rationals; `NaN` and the two
  infinities are separate constructors, since `clampScore` discriminates
  them.  `Math.round x` is `⌊x + 1/2⌋` (round half toward +∞), the
  idealized ECMAScript semantics.
* `String.prototype.trim` is modelled by `jsTrim`, which drops whitespace
  characters from both ends; `toLowerCase` by `jsToLower`;
  `String.prototype.includes` by a substring test on the character list.
* Property access `o.k` on a non-object yields `undefined`, except on
  `null`, where it throws; accordingly `mapToReport` returns an `Except`,
  whose `error` case models the thrown `TypeError`.
* React state updates are modelled as a pure transition function on a
  `UIState` record; a single upload's outcome (read error / loaded text /
  result of the host `JSON.parse`) is an explicit event, since the file
  reader and the JSON parser are host functionality outside the repository.
-/

/-- Untyped JavaScript values producible by `JSON.parse`, extended with the
`NaN` and infinity cases an `unknown` number argument can carry. -/
inductive JValue where
  | null : JValue
  | bool (b : Bool) : JValue
  | num (q : ℚ) : JValue
  | nan : JValue
  | inf (positive : Bool) : JValue
  | str (s : String) : JValue
  | arr (items : List JValue) : JValue
  | obj (fields : List (String × JValue)) : JValue

/-- Model of JavaScript's `String.prototype.trim` on a character list:
drop whitespace from the front, then from the back. -/
def trimChars (cs : List Char) : List Char :=
  ((cs.dropWhile Char.isWhitespace).reverse.dropWhile Char.isWhitespace).reverse

/-- Model of JavaScript's `String.prototype.trim`. -/
def jsTrim (s : String) : String :=
  ⟨trimChars s.data⟩

/-- Last-wins field lookup in an object, matching `JSON.parse`'s handling
of duplicate keys (the later binding shadows the earlier one). -/
def jlookup (fields : List (String × JValue)) (k : String) : Option JValue :=
  fields.reverse.lookup k

/-- Property access `v.k`.  On an object it is the field lookup; on every
non-object it yields `undefined` (`none`) — except on `null`, where access
throws; callers model that case explicitly before calling `jget`.  (A JS
array has no own property named by any key the normalizer reads, so `none`
is faithful for arrays.) -/
def jget (v : JValue) (k : String) : Option JValue :=
  match v with
  | .obj fields => jlookup fields k
  | _ => none

/-- JavaScript nullish coalescing `a ?? b` (`none` models `undefined`). -/
def nullish (a b : Option JValue) : Option JValue :=
  match a with
  | some .null => b
  | none => b
  | some v => some v

/-- `Math.round`: round half toward positive infinity, `⌊x + 1/2⌋`. -/
def jsRound (q : ℚ) : ℤ := ⌊q + 1 / 2⌋

/-- `clampScore` (ReportPage.tsx:95-99): non-numbers, `NaN` and the
infinities give `0`; a finite number is rounded, then clamped to [0,100]. -/
def clampScore (score : Option JValue) : ℤ :=
  match score with
  | some (.num q) => min 100 (max 0 (jsRound q))
  | _ => 0

/-- `normalizeString` (ReportPage.tsx:101-104): a string with non-empty
trim is returned trimmed; anything else gives the fallback. -/
def normalizeString (value : Option JValue) (fallback : String) : String :=
  match value with
  | some (.str s) => if jsTrim s ≠ "" then jsTrim s else fallback
  | _ => fallback

structure Risk where
  type : String
  filePath : String
  explanation : String
deriving DecidableEq, Repr

structure ReportData where
  structuralViabilityScore : ℤ
  stage : String
  summary : String
  recommendedNextStep : String
  risks : List Risk
deriving DecidableEq, Repr

def placeholderReport : ReportData :=
  { structuralViabilityScore := 0,
    stage := "Awaiting Analysis",
    summary := "Your app works today — but it won't let you grow safely.\n\nThis is the moment where prototypes either evolve... or break.\n\nYour app works now, but it isn't built to survive real features, users, or growth.\n\nIt looks like a product — but it's still structured like a prototype.\n\nThe more you build on top of this structure (auth, teams, payments, workflows),\nthe more it begins to resist change.\n\nYou're not in trouble. You're just at the natural turning point —\nwhere speed must start meeting structure.",
    recommendedNextStep := "You don't need to start over.\n\nBut you do need to graduate.",
    risks := [] }

/-- The element test in `asRiskArray`'s `.map` body:
`typeof item === 'object' && item !== null`, i.e. `typeof` is `"object"`
exactly for objects, arrays and `null`, and `null` is then excluded. -/
def isObjLike (v : JValue) : Bool :=
  match v with
  | .obj _ => true
  | .arr _ => true
  | _ => false

/-- The three normalized fields read off a surviving element
(ReportPage.tsx:120-126), including the `file ?? filePath` and
`why ?? whyItMatters ?? explanation` alias chains. -/
def riskFields (item : JValue) : Risk :=
  { type := normalizeString (jget item "type") "Not provided",
    filePath :=
      normalizeString (nullish (jget item "file") (jget item "filePath")) "Not provided",
    explanation :=
      normalizeString
        (nullish (nullish (jget item "why") (jget item "whyItMatters"))
          (jget item "explanation"))
        "Not provided" }

/-- The `.map` body of `asRiskArray` (ReportPage.tsx:117-127): `null` for
elements dropped by the `typeof item !== 'object' || item === null` test,
the normalized risk otherwise. -/
def riskOfItem (item : JValue) : Option Risk :=
  match item with
  | .obj _ | .arr _ => some (riskFields item)
  | _ => none

/-- `asRiskArray` (ReportPage.tsx:114-129).  The source maps each element to
a risk-or-`null` and then filters the `null`s out, i.e. a `filterMap`. -/
def asRiskArray (value : Option JValue) : List Risk :=
  match value with
  | some (.arr items) => items.filterMap riskOfItem
  | _ => []

/-- `mapToReport` (ReportPage.tsx:131-143).  On `null` the very first
property access (`raw.structuralViabilityScore`) throws a `TypeError`,
modelled by the `error` case; on every other value each access yields the
field or `undefined`. -/
def mapToReport (raw : JValue) : Except Unit ReportData :=
  match raw with
  | .null => .error ()
  | _ =>
      .ok { structuralViabilityScore :=
              clampScore (nullish (jget raw "structuralViabilityScore") (jget raw "viabilityScore")),
            stage := normalizeString (jget raw "stage") "Not provided",
            summary := normalizeString (jget raw "summary") placeholderReport.summary,
            recommendedNextStep :=
              normalizeString (nullish (jget raw "recommendedNextStep") (jget raw "nextStep"))
                placeholderReport.recommendedNextStep,
            risks := asRiskArray (jget raw "risks") }

structure RiskTranslation where
  label : String
  severity : String
  message : String
deriving DecidableEq, Repr

/-- `translateRisk` (ReportPage.tsx:52-93): trim, then exact dispatch over
the five known tags; the default case echoes the raw (untrimmed) input as
the label. -/
def translateRisk (riskType : String) : RiskTranslation :=
  let normalized := jsTrim riskType
  if normalized = "APICallInUI" then
    { label := "Business logic mixed into UI", severity := "🔴 High Risk",
      message := "Works for demos, but fragile when adding auth, workflows, or team features." }
  else if normalized = "LogicInUI" then
    { label := "Logic tangled inside components", severity := "🟠 Medium Risk",
      message := "Hard to test, hard to change — every new feature increases risk." }
  else if normalized = "FlatStructure" then
    { label := "Prototype-only folder structure", severity := "🔴 Critical Risk",
      message := "Everything lives in one folder — evolution will be painful." }
  else if normalized = "HugeComponent" then
    { label := "Giant 'God' component", severity := "🟡 Medium-Low Risk",
      message := "One file doing too many jobs — a sign of structural fragility." }
  else if normalized = "CircularImport" then
    { label := "Circular dependency risk", severity := "🔴 Critical Risk",
      message := "Features begin to break randomly when files depend on each other in loops." }
  else
    { label := riskType, severity := "⚪ Unknown Risk",
      message := "Risk type not recognized — may indicate structural issues." }

structure UIState where
  report : ReportData
  isPlaceholder : Bool
  error : Option String
  fileName : Option String
deriving DecidableEq, Repr

/-- Outcome of one upload attempt, as delivered to the handler's callbacks:
the reader fired `onerror`; or `onload` fired but `reader.result` was not a
string; or `onload` fired with text content, together with the outcome of
the host `JSON.parse` on that text (`none` = the parse threw). -/
inductive UploadOutcome where
  | readError : UploadOutcome
  | loadedNonString : UploadOutcome
  | loadedText (text : String) (parsed : Option JValue) : UploadOutcome

def parseErrorMessage : String :=
  "We could not parse that file. Please confirm it is valid JSON."

def readErrorMessage : String :=
  "Something went wrong while reading that file. Please try again."

/-- The `catch` branch of `reader.onload` (ReportPage.tsx:175-181). -/
def parseFailureState (st : UIState) : UIState :=
  { st with error := some parseErrorMessage, report := placeholderReport,
            isPlaceholder := true, fileName := none }

/-- State transition for one upload of file `fname` (ReportPage.tsx:156-193).
`setError(null)` runs at selection time; the callbacks then update the four
state cells exactly as the source does — note that `onerror` sets only the
error message, while the `onload` `catch` also resets report, placeholder
flag and file name. -/
def handleUpload (st : UIState) (fname : String) (outcome : UploadOutcome) : UIState :=
  let st1 : UIState := { st with error := none }
  match outcome with
  | .readError => { st1 with error := some readErrorMessage }
  | .loadedNonString => parseFailureState st1
  | .loadedText _ none => parseFailureState st1
  | .loadedText _ (some v) =>
      match mapToReport v with
      | .error _ => parseFailureState st1
      | .ok r =>
          { report := r, isPlaceholder := false, error := none, fileName := some fname }

inductive Severity where
  | high : Severity
  | medium : Severity
  | low : Severity
deriving DecidableEq, Repr

structure Insight where
  id : ℤ
  title : String
  severity : Severity
  summary : String
  files : Option (List String)
  recommendation : Option String
deriving DecidableEq, Repr

/-- `pat` is a prefix of the second list. -/
def startsWithChars : List Char → List Char → Bool
  | [], _ => true
  | _ :: _, [] => false
  | p :: ps, c :: cs => p == c && startsWithChars ps cs

/-- `pat` occurs as a contiguous run somewhere in the second list. -/
def containsChars (pat : List Char) : List Char → Bool
  | [] => startsWithChars pat []
  | c :: cs => startsWithChars pat (c :: cs) || containsChars pat cs

/-- JavaScript's `String.prototype.includes`: substring test. -/
def jsIncludes (s pat : String) : Bool :=
  containsChars pat.data s.data

/-- JavaScript's `String.prototype.toLowerCase` (character-wise lowering;
the keyword patterns are ASCII, where this matches the host exactly). -/
def jsToLower (s : String) : String :=
  ⟨s.data.map Char.toLower⟩

/-- `i.title.toLowerCase().includes(pat)` for a lowercase literal `pat`. -/
def titleHas (i : Insight) (pat : String) : Bool :=
  jsIncludes (jsToLower i.title) pat

/-- Pattern flag (ReportPage.tsx:632-637). -/
def hasDatabaseRisk (insights : List Insight) : Bool :=
  insights.any fun i => titleHas i "database" || titleHas i "shared" || titleHas i "schema"

/-- Pattern flag (ReportPage.tsx:639-645). -/
def hasBottleneck (insights : List Insight) : Bool :=
  insights.any fun i =>
    titleHas i "auth" || titleHas i "identity" || titleHas i "bottleneck" || titleHas i "god"

/-- Pattern flag (ReportPage.tsx:647-653). -/
def hasExternalDependency (insights : List Insight) : Bool :=
  insights.any fun i =>
    titleHas i "stripe" || titleHas i "3rd party" || titleHas i "external" ||
      titleHas i "integration"

/-- Pattern flag (ReportPage.tsx:655-660). -/
def hasCrossDomain (insights : List Insight) : Bool :=
  insights.any fun i =>
    titleHas i "cross-domain" || titleHas i "coupling" || titleHas i "domain"

structure Fragility where
  signal : String
  summary : String
deriving DecidableEq, Repr

/-- The classification chain in the `.map` body of the top-fragility
extraction (ReportPage.tsx:666-681). -/
def fragilitySignal (i : Insight) : String :=
  if titleHas i "database" || titleHas i "shared" then "Shared Database Risk"
  else if titleHas i "auth" || titleHas i "bottleneck" then "Structural Bottleneck"
  else if titleHas i "stripe" || titleHas i "integration" then "External API Blast Radius"
  else if titleHas i "cross-domain" || titleHas i "coupling" then "Cross-Domain Coupling"
  else i.title

/-- Top-fragility extraction (ReportPage.tsx:663-683): filter to
high/medium severity, take the first 3, classify each. -/
def topFragilities (insights : List Insight) : List Fragility :=
  ((insights.filter fun i => i.severity == .high || i.severity == .medium).take 3).map
    fun i => { signal := fragilitySignal i, summary := i.summary }

/-- Modelled from the spec: the classifier the claim describes, reusing the
boolean pattern flags' keyword sets (including `schema`, `identity`, `god`,
`3rd party`, `external` and `domain`) in the claimed priority order.
Written from the spec's words, for comparison with `fragilitySignal`. -/
def flagPolicySignal (i : Insight) : String :=
  if titleHas i "database" || titleHas i "shared" || titleHas i "schema" then
    "Shared Database Risk"
  else if titleHas i "auth" || titleHas i "identity" || titleHas i "bottleneck" ||
      titleHas i "god" then
    "Structural Bottleneck"
  else if titleHas i "stripe" || titleHas i "3rd party" || titleHas i "external" ||
      titleHas i "integration" then
    "External API Blast Radius"
  else if titleHas i "cross-domain" || titleHas i "coupling" || titleHas i "domain" then
    "Cross-Domain Coupling"
  else i.title

/-- Modelled from the spec: top-fragility extraction under the claimed
flag-keyword classification policy. -/
def flagPolicyTopFragilities (insights : List Insight) : List Fragility :=
  ((insights.filter fun i => i.severity == .high || i.severity == .medium).take 3).map
    fun i => { signal := flagPolicySignal i, summary := i.summary }

/-- Ordered (category, keyword set) table making the code's classification
priority explicit (spec §9's suggested presentation). -/
def signalTable : List (String × List String) :=
  [("Shared Database Risk", ["database", "shared"]),
   ("Structural Bottleneck", ["auth", "bottleneck"]),
   ("External API Blast Radius", ["stripe", "integration"]),
   ("Cross-Domain Coupling", ["cross-domain", "coupling"])]

/-- Table-driven form of the classification: first matching row wins,
falling back to the raw title. -/
def tableSignal (i : Insight) : String :=
  match signalTable.find? (fun row => row.2.any fun k => titleHas i k) with
  | some row => row.1
  | none => i.title

/-- The canonical JSON form of a normalized risk (the shape `JSON.stringify`
would emit: canonical field names only). -/
def riskToJValue (k : Risk) : JValue :=
  .obj [("type", .str k.type), ("filePath", .str k.filePath),
        ("explanation", .str k.explanation)]

/-- The canonical JSON form of a normalized report. -/
def reportToJValue (r : ReportData) : JValue :=
  .obj [("structuralViabilityScore", .num (r.structuralViabilityScore : ℚ)),
        ("stage", .str r.stage),
        ("summary", .str r.summary),
        ("recommendedNextStep", .str r.recommendedNextStep),
        ("risks", .arr (r.risks.map riskToJValue))]

/-- Well-formedness of a displayable report (spec §3): integral score in
[0,100] (integrality is inherent to the `ℤ` field); the string fields and
every risk field are non-empty. -/
def WellFormedReport (r : ReportData) : Prop :=
  0 ≤ r.structuralViabilityScore ∧ r.structuralViabilityScore ≤ 100 ∧
    r.stage ≠ "" ∧ r.summary ≠ "" ∧ r.recommendedNextStep ≠ "" ∧
    ∀ k ∈ r.risks, k.type ≠ "" ∧ k.filePath ≠ "" ∧ k.explanation ≠ ""

/-- A string in trimmed form and non-empty: the shape of every string the
normalizer outputs. -/
def GoodString (s : String) : Prop :=
  jsTrim s = s ∧ s ≠ ""

/-- All three fields of a risk are good strings. -/
def GoodRisk (k : Risk) : Prop :=
  GoodString k.type ∧ GoodString k.filePath ∧ GoodString k.explanation

/-- The shape of every report the normalizer outputs: clamped score, good
strings everywhere.  Implies `WellFormedReport` and is preserved by a
normalize/serialize round trip. -/
def GoodReport (r : ReportData) : Prop :=
  0 ≤ r.structuralViabilityScore ∧ r.structuralViabilityScore ≤ 100 ∧
    GoodString r.stage ∧ GoodString r.summary ∧ GoodString r.recommendedNextStep ∧
    ∀ k ∈ r.risks, GoodRisk k

/-! ## Supporting lemmas -/

/-- A list that starts with a non-`p` element is unchanged by `dropWhile p`. -/
theorem dropWhile_eq_self_of_head (p : α → Bool) (l : List α)
    (h : ∀ a ∈ l.head?, p a = false) : l.dropWhile p = l := by
  cases l with
  | nil => rfl
  | cons a l =>
      have ha : p a = false := h a rfl
      exact List.dropWhile_cons_of_neg (by simp [ha])

/-- The head of `l.dropWhile p` (when it exists) does not satisfy `p`. -/
theorem head?_dropWhile_false (p : α → Bool) (l : List α) :
    ∀ a ∈ (l.dropWhile p).head?, p a = false := by
  induction l with
  | nil => intro a ha; cases ha
  | cons b l ih =>
      intro a ha
      by_cases h : p b
      · exact ih a (by simpa [List.dropWhile_cons_of_pos h] using ha)
      · have hba : b = a := by
          simpa [List.dropWhile_cons_of_neg h] using ha
        rw [← hba]
        simpa using h

/-- Trimming an already-trimmed character list changes nothing. -/
theorem trimChars_idem (cs : List Char) : trimChars (trimChars cs) = trimChars cs := by
  unfold trimChars
  set d := cs.dropWhile Char.isWhitespace with hd
  set e := d.reverse.dropWhile Char.isWhitespace with he
  have hdhead : ∀ a ∈ d.head?, Char.isWhitespace a = false :=
    head?_dropWhile_false Char.isWhitespace cs
  have hehead : ∀ a ∈ e.head?, Char.isWhitespace a = false :=
    head?_dropWhile_false Char.isWhitespace d.reverse
  -- `e.reverse` is a prefix of `d`, so its head (if any) is the head of `d`.
  have hpre : e.reverse <+: d := by
    have hsuf : e <:+ d.reverse := List.dropWhile_suffix Char.isWhitespace
    have := List.reverse_prefix.mpr hsuf
    simpa using this
  have h1 : e.reverse.dropWhile Char.isWhitespace = e.reverse := by
    apply dropWhile_eq_self_of_head
    intro a ha
    rcases hpre with ⟨t, ht⟩
    cases hrev : e.reverse with
    | nil => rw [hrev] at ha; cases ha
    | cons b l =>
        have hb : b = a := by rw [hrev] at ha; simpa using ha
        have hdb : d.head? = some b := by rw [← ht, hrev]; rfl
        exact hb ▸ hdhead b hdb
  have h2 : e.dropWhile Char.isWhitespace = e :=
    dropWhile_eq_self_of_head _ _ hehead
  rw [h1, List.reverse_reverse, h2]

theorem jsTrim_idem (s : String) : jsTrim (jsTrim s) = jsTrim s := by
  show (⟨trimChars (jsTrim s).data⟩ : String) = ⟨trimChars s.data⟩
  simp [jsTrim, trimChars_idem]

/-- `normalizeString` returns either the trimmed input string (when that
trim is non-empty) or the fallback — nothing else. -/
theorem normalizeString_cases (v : Option JValue) (fb : String) :
    (∃ s, v = some (.str s) ∧ jsTrim s ≠ "" ∧ normalizeString v fb = jsTrim s) ∨
      normalizeString v fb = fb := by
  cases v with
  | none => right; rfl
  | some w =>
      cases w with
      | str s =>
          by_cases h : jsTrim s = ""
          · right; simp [normalizeString, h]
          · left; exact ⟨s, rfl, h, by simp [normalizeString, h]⟩
      | null => right; rfl
      | bool b => right; rfl
      | num q => right; rfl
      | nan => right; rfl
      | inf p => right; rfl
      | arr xs => right; rfl
      | obj fs => right; rfl

theorem normalizeString_ne_empty (v : Option JValue) (fb : String) (h : fb ≠ "") :
    normalizeString v fb ≠ "" := by
  rcases normalizeString_cases v fb with ⟨s, _, hs, he⟩ | he
  · rw [he]; exact hs
  · rw [he]; exact h

theorem normalizeString_good (v : Option JValue) (fb : String) (h : GoodString fb) :
    GoodString (normalizeString v fb) := by
  rcases normalizeString_cases v fb with ⟨s, _, hs, he⟩ | he
  · rw [he]
    exact ⟨jsTrim_idem s, hs⟩
  · rw [he]; exact h

theorem normalizeString_of_good (s : String) (fb : String) (h : GoodString s) :
    normalizeString (some (.str s)) fb = s := by
  rcases h with ⟨ht, hn⟩
  simp [normalizeString, ht, hn]

theorem clampScore_nonneg (v : Option JValue) : 0 ≤ clampScore v := by
  unfold clampScore
  cases v with
  | none => simp
  | some w => cases w <;> simp

theorem clampScore_le (v : Option JValue) : clampScore v ≤ 100 := by
  unfold clampScore
  cases v with
  | none => simp
  | some w => cases w <;> simp

theorem jsRound_intCast (n : ℤ) : jsRound ((n : ℚ)) = n := by
  unfold jsRound
  rw [Int.floor_int_add]
  norm_num

theorem clampScore_intCast (n : ℤ) (h0 : 0 ≤ n) (h1 : n ≤ 100) :
    clampScore (some (.num (n : ℚ))) = n := by
  simp [clampScore, jsRound_intCast]
  omega

/-- `a ?? b` keeps a non-null defined left operand. -/
theorem nullish_some {v : JValue} (h : v ≠ .null) (b : Option JValue) :
    nullish (some v) b = some v := by
  cases v <;> first | exact absurd rfl h | rfl

/-- The map-then-filter of the source is a filter of the object-like
elements followed by field normalization. -/
theorem filterMap_riskOfItem (xs : List JValue) :
    xs.filterMap riskOfItem = (xs.filter isObjLike).map riskFields := by
  induction xs with
  | nil => rfl
  | cons x xs ih => cases x <;> simp [riskOfItem, isObjLike, ih]

theorem riskFields_good (item : JValue) : GoodRisk (riskFields item) := by
  have hnp : GoodString "Not provided" := by constructor <;> decide
  exact ⟨normalizeString_good _ _ hnp, normalizeString_good _ _ hnp,
    normalizeString_good _ _ hnp⟩

theorem asRiskArray_good (v : Option JValue) : ∀ k ∈ asRiskArray v, GoodRisk k := by
  intro k hk
  rcases v with _ | w
  · cases hk
  · cases w <;> try cases hk
    case arr items =>
      have hk2 : k ∈ items.filterMap riskOfItem := hk
      rw [filterMap_riskOfItem] at hk2
      rcases List.mem_map.mp hk2 with ⟨x, _, hx⟩
      exact hx ▸ riskFields_good x

set_option maxRecDepth 8000 in
theorem goodString_summary : GoodString placeholderReport.summary := by
  constructor <;> decide

set_option maxRecDepth 8000 in
theorem goodString_nextStep : GoodString placeholderReport.recommendedNextStep := by
  constructor <;> decide

/-- The record `mapToReport` builds (for any non-null input) is made of
clamped and good-string components. -/
theorem good_mapBody (raw : JValue) :
    GoodReport
      { structuralViabilityScore :=
          clampScore (nullish (jget raw "structuralViabilityScore") (jget raw "viabilityScore")),
        stage := normalizeString (jget raw "stage") "Not provided",
        summary := normalizeString (jget raw "summary") placeholderReport.summary,
        recommendedNextStep :=
          normalizeString (nullish (jget raw "recommendedNextStep") (jget raw "nextStep"))
            placeholderReport.recommendedNextStep,
        risks := asRiskArray (jget raw "risks") } :=
  ⟨clampScore_nonneg _, clampScore_le _,
    normalizeString_good _ _ (by constructor <;> decide),
    normalizeString_good _ _ goodString_summary,
    normalizeString_good _ _ goodString_nextStep,
    asRiskArray_good _⟩

theorem goodReport_wellFormed (r : ReportData) (h : GoodReport r) : WellFormedReport r := by
  obtain ⟨h0, h1, hs, hsum, hnext, hrisks⟩ := h
  refine ⟨h0, h1, hs.2, hsum.2, hnext.2, ?_⟩
  intro k hk
  obtain ⟨g1, g2, g3⟩ := hrisks k hk
  exact ⟨g1.2, g2.2, g3.2⟩

theorem mapToReport_ok_good (raw : JValue) (r : ReportData) (h : mapToReport raw = .ok r) :
    GoodReport r := by
  cases raw with
  | null => exact absurd h (by simp [mapToReport])
  | bool b => injection h with h2; exact h2 ▸ good_mapBody _
  | num q => injection h with h2; exact h2 ▸ good_mapBody _
  | nan => injection h with h2; exact h2 ▸ good_mapBody _
  | inf p => injection h with h2; exact h2 ▸ good_mapBody _
  | str s => injection h with h2; exact h2 ▸ good_mapBody _
  | arr xs => injection h with h2; exact h2 ▸ good_mapBody _
  | obj fs => injection h with h2; exact h2 ▸ good_mapBody _

/-- Re-normalizing the canonical JSON form of a good risk is the identity. -/
theorem riskOfItem_roundTrip (k : Risk) (h : GoodRisk k) :
    riskOfItem (riskToJValue k) = some k := by
  obtain ⟨h1, h2, h3⟩ := h
  have e : riskOfItem (riskToJValue k) =
      some { type := normalizeString (some (.str k.type)) "Not provided",
             filePath := normalizeString (some (.str k.filePath)) "Not provided",
             explanation := normalizeString (some (.str k.explanation)) "Not provided" } := rfl
  rw [e, normalizeString_of_good _ _ h1, normalizeString_of_good _ _ h2,
    normalizeString_of_good _ _ h3]

theorem filterMap_riskToJValue (ks : List Risk) :
    (∀ k ∈ ks, GoodRisk k) → (ks.map riskToJValue).filterMap riskOfItem = ks := by
  induction ks with
  | nil => intro _; rfl
  | cons k ks ih =>
      intro h
      simp only [List.map_cons, List.filterMap_cons,
        riskOfItem_roundTrip k (h k (List.mem_cons_self k ks))]
      rw [ih fun x hx => h x (List.mem_cons_of_mem _ hx)]

theorem asRiskArray_roundTrip (ks : List Risk) (h : ∀ k ∈ ks, GoodRisk k) :
    asRiskArray (some (.arr (ks.map riskToJValue))) = ks :=
  filterMap_riskToJValue ks h

/-- Re-normalizing the canonical JSON form of a good report is the identity. -/
theorem reportToJValue_roundTrip (r : ReportData) (h : GoodReport r) :
    mapToReport (reportToJValue r) = .ok r := by
  obtain ⟨h0, h1, hs, hsum, hnext, hrisks⟩ := h
  have e : mapToReport (reportToJValue r) =
      .ok { structuralViabilityScore :=
              clampScore (some (.num (r.structuralViabilityScore : ℚ))),
            stage := normalizeString (some (.str r.stage)) "Not provided",
            summary := normalizeString (some (.str r.summary)) placeholderReport.summary,
            recommendedNextStep :=
              normalizeString (some (.str r.recommendedNextStep))
                placeholderReport.recommendedNextStep,
            risks := asRiskArray (some (.arr (r.risks.map riskToJValue))) } := rfl
  rw [e, clampScore_intCast _ h0 h1, normalizeString_of_good _ _ hs,
    normalizeString_of_good _ _ hsum, normalizeString_of_good _ _ hnext,
    asRiskArray_roundTrip _ hrisks]

/-- The source's if-else classification chain equals the ordered-table
classifier over the reduced keyword sets. -/
theorem fragilitySignal_eq_table (i : Insight) : fragilitySignal i = tableSignal i := by
  unfold fragilitySignal tableSignal signalTable
  simp only [List.find?, List.any_cons, List.any_nil, Bool.or_false]
  cases hA : (titleHas i "database" || titleHas i "shared") <;>
    cases hB : (titleHas i "auth" || titleHas i "bottleneck") <;>
      cases hC : (titleHas i "stripe" || titleHas i "integration") <;>
        cases hD : (titleHas i "cross-domain" || titleHas i "coupling") <;>
          simp [hA, hB, hC, hD]

/-! ## Claim theorems -/

/-- C1 (amended): for every value `JSON.parse` can produce other than
`null`, `mapToReport` succeeds and returns a well-formed report, with
defaults substituted for anything malformed.  At `null` itself the function
does not return a report: the first property access throws (see the
counterexample theorem). -/
theorem mapToReport_total_amended (raw : JValue) (h : raw ≠ .null) :
    ∃ r, mapToReport raw = .ok r ∧ WellFormedReport r := by
  cases raw with
  | null => exact absurd rfl h
  | bool b => exact ⟨_, rfl, goodReport_wellFormed _ (good_mapBody _)⟩
  | num q => exact ⟨_, rfl, goodReport_wellFormed _ (good_mapBody _)⟩
  | nan => exact ⟨_, rfl, goodReport_wellFormed _ (good_mapBody _)⟩
  | inf p => exact ⟨_, rfl, goodReport_wellFormed _ (good_mapBody _)⟩
  | str s => exact ⟨_, rfl, goodReport_wellFormed _ (good_mapBody _)⟩
  | arr xs => exact ⟨_, rfl, goodReport_wellFormed _ (good_mapBody _)⟩
  | obj fs => exact ⟨_, rfl, goodReport_wellFormed _ (good_mapBody _)⟩

/-- C1 witness: the number `5` — a non-object `JSON.parse` output — is
normalized to a well-formed report. -/
theorem mapToReport_total_amended_witness :
    ∃ r, mapToReport (.num 5) = .ok r ∧ WellFormedReport r :=
  mapToReport_total_amended (.num 5) (by simp)

/-- C1 counterexample: on `null` — a value `JSON.parse` can produce —
`mapToReport` does not return a report: the property access
`raw.structuralViabilityScore` throws, so the claimed totality over all
`JSON.parse` outputs fails. -/
theorem mapToReport_null_counterexample : mapToReport .null = .error () := rfl

/-- C2: `clampScore` yields 0 for every input that is not a finite number
(wrong type, `NaN`, infinities); a finite number is rounded half-up
(`⌊x + 1/2⌋`) and then clamped to [0,100]; the result is always an integer
(the `ℤ` codomain) in [0,100]; and `clampScore (-5) = 0`,
`clampScore 150 = 100`, `clampScore 42.5 = 43`. -/
theorem clampScore_spec :
    (∀ v : Option JValue, (∀ q : ℚ, v ≠ some (.num q)) → clampScore v = 0) ∧
      (∀ q : ℚ, clampScore (some (.num q)) = min 100 (max 0 ⌊q + 1 / 2⌋)) ∧
      (∀ v : Option JValue, 0 ≤ clampScore v ∧ clampScore v ≤ 100) ∧
      clampScore (some (.num (-5))) = 0 ∧
      clampScore (some (.num 150)) = 100 ∧
      clampScore (some (.num (42.5 : ℚ))) = 43 := by
  refine ⟨?_, fun q => rfl, fun v => ⟨clampScore_nonneg v, clampScore_le v⟩, ?_, ?_, ?_⟩
  · intro v h
    rcases v with _ | w
    · rfl
    · cases w with
      | num q => exact absurd rfl (h q)
      | null => rfl
      | bool b => rfl
      | nan => rfl
      | inf p => rfl
      | str s => rfl
      | arr xs => rfl
      | obj fs => rfl
  · norm_num [clampScore, jsRound]
  · norm_num [clampScore, jsRound]
  · norm_num [clampScore, jsRound]

/-- C2 witness: the non-number inputs of the spec's test list (a string,
`NaN`, `Infinity`, and `null`) all clamp to 0. -/
theorem clampScore_spec_witness :
    clampScore (some (.str "78")) = 0 ∧ clampScore (some .nan) = 0 ∧
      clampScore (some (.inf true)) = 0 ∧ clampScore (some .null) = 0 :=
  ⟨clampScore_spec.1 _ (by simp), clampScore_spec.1 _ (by simp),
    clampScore_spec.1 _ (by simp), clampScore_spec.1 _ (by simp)⟩

/-- C3: `translateRisk` trims its input before matching; each of the five
known tags maps to its fixed (label, severity, message) triple — in
particular `APICallInUI` to severity `🔴 High Risk` and label `Business
logic mixed into UI` — and every other input (including the empty string)
falls to the default: the raw input echoed as label, the `⚪ Unknown Risk`
severity and the fixed disclaimer.  Totality is inherent: `translateRisk`
is a Lean function on all strings. -/
theorem translateRisk_spec :
    (∀ s, jsTrim s = "APICallInUI" →
        translateRisk s =
          { label := "Business logic mixed into UI", severity := "🔴 High Risk",
            message := "Works for demos, but fragile when adding auth, workflows, or team features." }) ∧
      (∀ s, jsTrim s = "LogicInUI" →
          translateRisk s =
            { label := "Logic tangled inside components", severity := "🟠 Medium Risk",
              message := "Hard to test, hard to change — every new feature increases risk." }) ∧
      (∀ s, jsTrim s = "FlatStructure" →
          translateRisk s =
            { label := "Prototype-only folder structure", severity := "🔴 Critical Risk",
              message := "Everything lives in one folder — evolution will be painful." }) ∧
      (∀ s, jsTrim s = "HugeComponent" →
          translateRisk s =
            { label := "Giant 'God' component", severity := "🟡 Medium-Low Risk",
              message := "One file doing too many jobs — a sign of structural fragility." }) ∧
      (∀ s, jsTrim s = "CircularImport" →
          translateRisk s =
            { label := "Circular dependency risk", severity := "🔴 Critical Risk",
              message := "Features begin to break randomly when files depend on each other in loops." }) ∧
      (∀ s,
          jsTrim s ∉
              (["APICallInUI", "LogicInUI", "FlatStructure", "HugeComponent",
                  "CircularImport"] : List String) →
          translateRisk s =
            { label := s, severity := "⚪ Unknown Risk",
              message := "Risk type not recognized — may indicate structural issues." }) := by
  refine ⟨?_, ?_, ?_, ?_, ?_, ?_⟩ <;> intro s h
  · simp [translateRisk, h]
  · simp [translateRisk, h]
  · simp [translateRisk, h]
  · simp [translateRisk, h]
  · simp [translateRisk, h]
  · simp only [List.mem_cons, List.mem_singleton, not_or] at h
    obtain ⟨h1, h2, h3, h4, h5⟩ := h
    simp [translateRisk, h1, h2, h3, h4, h5]

/-- C3 witness: a padded known tag is matched after trimming, and the empty
string falls through to the default with itself echoed as the label. -/
theorem translateRisk_spec_witness :
    translateRisk " APICallInUI " =
        { label := "Business logic mixed into UI", severity := "🔴 High Risk",
          message := "Works for demos, but fragile when adding auth, workflows, or team features." } ∧
      translateRisk "" =
        { label := "", severity := "⚪ Unknown Risk",
          message := "Risk type not recognized — may indicate structural issues." } :=
  ⟨translateRisk_spec.1 _ (by decide), translateRisk_spec.2.2.2.2.2 _ (by decide)⟩

/-- C4: `asRiskArray` maps every non-array to `[]`; on an array it drops
exactly the elements that are not non-null structured records and
normalizes the survivors in order (a filter followed by a map, so input
order is preserved); each normalized field is the trimmed string value or
the fallback `Not provided`; every resulting risk has all three fields
non-empty; and `[1, "x", null, {type:"A"}]` yields exactly one risk. -/
theorem asRiskArray_spec :
    (∀ v : Option JValue, (∀ xs, v ≠ some (.arr xs)) → asRiskArray v = []) ∧
      (∀ xs, asRiskArray (some (.arr xs)) = (xs.filter isObjLike).map riskFields) ∧
      (∀ (v : Option JValue) (fb : String),
          (∃ s, v = some (.str s) ∧ jsTrim s ≠ "" ∧ normalizeString v fb = jsTrim s) ∨
            normalizeString v fb = fb) ∧
      (∀ v : Option JValue, ∀ k ∈ asRiskArray v,
          k.type ≠ "" ∧ k.filePath ≠ "" ∧ k.explanation ≠ "") ∧
      asRiskArray (some (.arr [.num 1, .str "x", .null, .obj [("type", .str "A")]])) =
        [{ type := "A", filePath := "Not provided", explanation := "Not provided" }] := by
  refine ⟨?_, fun xs => filterMap_riskOfItem xs, normalizeString_cases, ?_, by decide⟩
  · intro v h
    rcases v with _ | w
    · rfl
    · cases w with
      | arr xs => exact absurd rfl (h xs)
      | null => rfl
      | bool b => rfl
      | num q => rfl
      | nan => rfl
      | inf p => rfl
      | str s => rfl
      | obj fs => rfl
  · intro v k hk
    obtain ⟨h1, h2, h3⟩ := asRiskArray_good v k hk
    exact ⟨h1.2, h2.2, h3.2⟩

/-- C4 witness: non-array inputs (a number, an object, `undefined`) all
coerce to the empty risk list. -/
theorem asRiskArray_spec_witness :
    asRiskArray (some (.num 3)) = [] ∧ asRiskArray (some (.obj [("a", .null)])) = [] ∧
      asRiskArray none = [] :=
  ⟨asRiskArray_spec.1 _ (by intro xs; simp), asRiskArray_spec.1 _ (by intro xs; simp),
    asRiskArray_spec.1 _ (by intro xs; simp)⟩

/-- C5: alias resolution prefers the listed-first field name when both are
present and the preferred one is non-nullish: `structuralViabilityScore`
over `viabilityScore`, `recommendedNextStep` over `nextStep`, `file` over
`filePath` (so `{file:"a.ts", filePath:"b.ts"}` yields `a.ts`), and `why`
over `whyItMatters` over `explanation`. -/
theorem alias_precedence_spec :
    (∀ v w : JValue, v ≠ .null →
        (mapToReport (.obj [("structuralViabilityScore", v), ("viabilityScore", w)])).map
            (fun r => r.structuralViabilityScore) =
          .ok (clampScore (some v))) ∧
      (∀ v w : JValue, v ≠ .null →
          (mapToReport (.obj [("recommendedNextStep", v), ("nextStep", w)])).map
              (fun r => r.recommendedNextStep) =
            .ok (normalizeString (some v) placeholderReport.recommendedNextStep)) ∧
      (∀ v w : JValue, v ≠ .null →
          asRiskArray (some (.arr [.obj [("file", v), ("filePath", w)]])) =
            [{ type := "Not provided",
               filePath := normalizeString (some v) "Not provided",
               explanation := "Not provided" }]) ∧
      asRiskArray (some (.arr [.obj [("file", .str "a.ts"), ("filePath", .str "b.ts")]])) =
        [{ type := "Not provided", filePath := "a.ts", explanation := "Not provided" }] ∧
      (∀ u v w : JValue, u ≠ .null →
          asRiskArray
              (some (.arr [.obj [("why", u), ("whyItMatters", v), ("explanation", w)]])) =
            [{ type := "Not provided", filePath := "Not provided",
               explanation := normalizeString (some u) "Not provided" }]) ∧
      (∀ v w : JValue, v ≠ .null →
          asRiskArray (some (.arr [.obj [("whyItMatters", v), ("explanation", w)]])) =
            [{ type := "Not provided", filePath := "Not provided",
               explanation := normalizeString (some v) "Not provided" }]) := by
  refine ⟨?_, ?_, ?_, by decide, ?_, ?_⟩
  · intro v w h
    have e :
        (mapToReport (.obj [("structuralViabilityScore", v), ("viabilityScore", w)])).map
            (fun r => r.structuralViabilityScore) =
          .ok (clampScore (nullish (some v) (some w))) := rfl
    rw [e, nullish_some h]
  · intro v w h
    have e :
        (mapToReport (.obj [("recommendedNextStep", v), ("nextStep", w)])).map
            (fun r => r.recommendedNextStep) =
          .ok (normalizeString (nullish (some v) (some w))
            placeholderReport.recommendedNextStep) := rfl
    rw [e, nullish_some h]
  · intro v w h
    have e :
        asRiskArray (some (.arr [.obj [("file", v), ("filePath", w)]])) =
          [{ type := "Not provided",
             filePath := normalizeString (nullish (some v) (some w)) "Not provided",
             explanation := "Not provided" }] := rfl
    rw [e, nullish_some h]
  · intro u v w h
    have e :
        asRiskArray
            (some (.arr [.obj [("why", u), ("whyItMatters", v), ("explanation", w)]])) =
          [{ type := "Not provided", filePath := "Not provided",
             explanation :=
               normalizeString (nullish (nullish (some u) (some v)) (some w))
                 "Not provided" }] := rfl
    rw [e, nullish_some h, nullish_some h]
  · intro v w h
    have e :
        asRiskArray (some (.arr [.obj [("whyItMatters", v), ("explanation", w)]])) =
          [{ type := "Not provided", filePath := "Not provided",
             explanation :=
               normalizeString (nullish (some v) (some w)) "Not provided" }] := rfl
    rw [e, nullish_some h]

/-- C5 witness: the aliases resolve as claimed on the spec's concrete
examples (`10` beats `90`, `a.ts` beats `b.ts`, `w1` beats `w2`/`w3`). -/
theorem alias_precedence_spec_witness :
    (mapToReport (.obj [("structuralViabilityScore", .num 10), ("viabilityScore", .num 90)])).map
        (fun r => r.structuralViabilityScore) =
      .ok (clampScore (some (.num 10))) ∧
      asRiskArray (some (.arr [.obj [("file", .str "a.ts"), ("filePath", .str "b.ts")]])) =
        [{ type := "Not provided",
           filePath := normalizeString (some (.str "a.ts")) "Not provided",
           explanation := "Not provided" }] ∧
      asRiskArray
          (some (.arr [.obj [("why", .str "w1"), ("whyItMatters", .str "w2"),
              ("explanation", .str "w3")]])) =
        [{ type := "Not provided", filePath := "Not provided",
           explanation := normalizeString (some (.str "w1")) "Not provided" }] :=
  ⟨alias_precedence_spec.1 _ _ (by simp), alias_precedence_spec.2.2.1 _ _ (by simp),
    alias_precedence_spec.2.2.2.2.1 _ _ _ (by simp)⟩

/-- C6 (amended): on unparsable content (non-string reader result, a failed
`JSON.parse`, or parsed `null`, whose normalization throws) the state
reverts to the placeholder report with the parse error message, retaining
no data from any prior load; on a read error the error message is set and
nothing crashes, but — contrary to the original claim — the previously
displayed report, placeholder flag and file name are left unchanged. -/
theorem handleUpload_failure_spec :
    (∀ (st : UIState) (fname : String),
        handleUpload st fname .loadedNonString =
          { report := placeholderReport, isPlaceholder := true,
            error := some parseErrorMessage, fileName := none }) ∧
      (∀ (st : UIState) (fname text : String),
          handleUpload st fname (.loadedText text none) =
            { report := placeholderReport, isPlaceholder := true,
              error := some parseErrorMessage, fileName := none }) ∧
      (∀ (st : UIState) (fname text : String),
          handleUpload st fname (.loadedText text (some .null)) =
            { report := placeholderReport, isPlaceholder := true,
              error := some parseErrorMessage, fileName := none }) ∧
      (∀ (st : UIState) (fname : String),
          handleUpload st fname .readError =
            { report := st.report, isPlaceholder := st.isPlaceholder,
              error := some readErrorMessage, fileName := st.fileName }) :=
  ⟨fun _ _ => rfl, fun _ _ _ => rfl, fun _ _ _ => rfl, fun _ _ => rfl⟩

/-- C6 counterexample: after a read error the previously loaded report
(score 77) stays displayed — the state does not revert to the placeholder
report as the claim asserts for both error kinds. -/
theorem readError_keeps_prior_report_counterexample :
    (handleUpload
        { report := { structuralViabilityScore := 77, stage := "Graduation Moment",
                      summary := "prior summary", recommendedNextStep := "prior next",
                      risks := [] },
          isPlaceholder := false, error := none, fileName := some "old.json" }
        "new.json" UploadOutcome.readError).report ≠ placeholderReport := by
  decide

/-- C7 (amended): a failed `JSON.parse` or a parsed `null` produce the
"confirm it is valid JSON" message and revert to the placeholder report;
a parsed object — with arbitrarily malformed fields — is always normalized
with no error; but — contrary to the original claim — the other non-object
JSON values (numbers, booleans, strings, arrays) are also accepted
silently, normalized to a fully defaulted report with no error message. -/
theorem handleUpload_parse_policy_spec :
    (∀ (st : UIState) (fname text : String),
        (handleUpload st fname (.loadedText text none)).error = some parseErrorMessage ∧
          (handleUpload st fname (.loadedText text none)).report = placeholderReport) ∧
      (∀ (st : UIState) (fname text : String),
          (handleUpload st fname (.loadedText text (some .null))).error =
              some parseErrorMessage ∧
            (handleUpload st fname (.loadedText text (some .null))).report =
              placeholderReport) ∧
      (∀ (st : UIState) (fname text : String) (fs : List (String × JValue)),
          ∃ r, mapToReport (.obj fs) = .ok r ∧
            handleUpload st fname (.loadedText text (some (.obj fs))) =
              { report := r, isPlaceholder := false, error := none, fileName := some fname }) ∧
      (∀ (st : UIState) (fname text : String) (q : ℚ),
          (handleUpload st fname (.loadedText text (some (.num q)))).error = none ∧
            (handleUpload st fname (.loadedText text (some (.num q)))).isPlaceholder = false) ∧
      (∀ (st : UIState) (fname text : String) (b : Bool),
          (handleUpload st fname (.loadedText text (some (.bool b)))).error = none) ∧
      (∀ (st : UIState) (fname text s2 : String),
          (handleUpload st fname (.loadedText text (some (.str s2)))).error = none) ∧
      (∀ (st : UIState) (fname text : String) (xs : List JValue),
          (handleUpload st fname (.loadedText text (some (.arr xs)))).error = none) :=
  ⟨fun _ _ _ => ⟨rfl, rfl⟩, fun _ _ _ => ⟨rfl, rfl⟩,
    fun _ _ _ _ => ⟨_, rfl, rfl⟩, fun _ _ _ _ => ⟨rfl, rfl⟩,
    fun _ _ _ _ => rfl, fun _ _ _ _ => rfl, fun _ _ _ _ => rfl⟩

/-- C7 counterexample: the upload text `5` is valid JSON but not an object,
yet no error message is produced and the placeholder flag is cleared — the
report is accepted silently rather than rejected with the
"confirm it is valid JSON" message. -/
theorem nonObject_json_accepted_counterexample :
    (handleUpload
          { report := placeholderReport, isPlaceholder := true, error := none, fileName := none }
          "f.json" (.loadedText "5" (some (.num 5)))).error = none ∧
      (handleUpload
          { report := placeholderReport, isPlaceholder := true, error := none, fileName := none }
          "f.json" (.loadedText "5" (some (.num 5)))).isPlaceholder = false :=
  ⟨rfl, rfl⟩

/-- C8: normalization is deterministic (equal inputs give equal reports —
purity is inherent to the embedding as a Lean function), and re-normalizing
the canonical JSON form of any normalizer output reproduces it exactly
(round-trip stability, risks in order). -/
theorem mapToReport_roundTrip :
    (∀ raw raw' : JValue, raw = raw' → mapToReport raw = mapToReport raw') ∧
      ∀ (raw : JValue) (r : ReportData),
        mapToReport raw = .ok r → mapToReport (reportToJValue r) = .ok r := by
  refine ⟨fun raw _ h => congrArg mapToReport h, ?_⟩
  intro raw r h
  exact reportToJValue_roundTrip r (mapToReport_ok_good raw r h)

set_option maxRecDepth 8000 in
/-- C8 witness: the report normalized from `{"stage":"S"}` (placeholder
summary and next step, score 0) survives the round trip unchanged. -/
theorem mapToReport_roundTrip_witness :
    mapToReport
        (reportToJValue
          { structuralViabilityScore := 0, stage := "S", summary := placeholderReport.summary,
            recommendedNextStep := placeholderReport.recommendedNextStep, risks := [] }) =
      .ok { structuralViabilityScore := 0, stage := "S", summary := placeholderReport.summary,
            recommendedNextStep := placeholderReport.recommendedNextStep, risks := [] } :=
  mapToReport_roundTrip.2 (.obj [("stage", .str "S")]) _ (by rfl)

/-- C9 (amended): the top-fragility selection filters to severity high or
medium, preserves order, takes the first 3 and classifies each by an
ordered keyword table with priority database > bottleneck >
external-integration > cross-domain > fallback-to-raw-title — but over the
reduced keyword sets `database/shared`, `auth/bottleneck`,
`stripe/integration`, `cross-domain/coupling`, not the boolean pattern
flags' larger sets; the selection never returns more than 3 entries. -/
theorem topFragilities_spec :
    (∀ insights : List Insight,
        topFragilities insights =
          ((insights.filter fun i => i.severity == .high || i.severity == .medium).take 3).map
            fun i => { signal := tableSignal i, summary := i.summary }) ∧
      ∀ insights : List Insight, (topFragilities insights).length ≤ 3 := by
  constructor
  · intro insights
    unfold topFragilities
    simp only [fragilitySignal_eq_table]
  · intro insights
    simp only [topFragilities, List.length_map, List.length_take]
    omega

/-- C9 counterexample: a high-severity insight titled `Schema drift` sets
the database pattern flag (whose keywords include `schema`), yet the
top-fragility classifier leaves it unclassified (raw title), while the
claimed flag-keyword policy would classify it as `Shared Database Risk` —
so the classifier does not use the same keyword policy as the flags. -/
theorem topFragilities_schema_counterexample :
    hasDatabaseRisk
        [{ id := 1, title := "Schema drift", severity := .high, summary := "s",
           files := none, recommendation := none }] = true ∧
      topFragilities
          [{ id := 1, title := "Schema drift", severity := .high, summary := "s",
             files := none, recommendation := none }] =
        [{ signal := "Schema drift", summary := "s" }] ∧
      flagPolicyTopFragilities
          [{ id := 1, title := "Schema drift", severity := .high, summary := "s",
             files := none, recommendation := none }] =
        [{ signal := "Shared Database Risk", summary := "s" }] :=
  ⟨by decide, by decide, by decide⟩

/-- C10: an array element that is itself an array is not dropped by
`asRiskArray`: it passes the `typeof item === 'object' && item !== null`
test and becomes a fully defaulted risk; exactly `null` and the non-object
primitives are filtered out. -/
theorem asRiskArray_array_element :
    (∀ xs : List JValue,
        riskOfItem (.arr xs) =
          some { type := "Not provided", filePath := "Not provided",
                 explanation := "Not provided" }) ∧
      asRiskArray (some (.arr [.arr []])) =
        [{ type := "Not provided", filePath := "Not provided", explanation := "Not provided" }] ∧
      asRiskArray (some (.arr [.arr [.num 1, .num 2]])) =
        [{ type := "Not provided", filePath := "Not provided", explanation := "Not provided" }] ∧
      (∀ x : JValue, riskOfItem x = none ↔
          (x = .null ∨ (∃ b, x = .bool b) ∨ (∃ q, x = .num q) ∨ x = .nan ∨
            (∃ p, x = .inf p) ∨ (∃ s, x = .str s))) := by
  refine ⟨fun _ => rfl, by decide, by decide, ?_⟩
  intro x
  cases x <;> simp [riskOfItem]
